import Mathlib

/-!
Verification of the DQN training loop in `Sem54/02_dqn_pong.py`.

The Python source is shallowly embedded: hyperparameter constants become Lean
constants (floats as exact rationals), the `Experience` namedtuple becomes a
structure, the replay buffer (a `collections.deque` with `maxlen`) becomes a
list together with the deque eviction rule, the agent's mutable fields become
explicit state passing, and the two networks are abstracted to functions from
states to per-action value vectors (the networks themselves are external
collaborators of the program).  Randomness (numpy's uniform draw, the random
action, the sampled indices) is passed in as explicit parameters, constrained
by the documented guarantees of the library calls that produce them.
-/

/-- Hyperparameter constant `GAMMA = 0.99` (line 30 of the source). -/
def GAMMA : ℚ := 99 / 100

/-- Hyperparameter constant `BATCH_SIZE = 32` (line 31). -/
def BATCH_SIZE : Nat := 32

/-- Hyperparameter constant `REPLAY_SIZE = 10000` (line 32). -/
def REPLAY_SIZE : Nat := 10000

/-- Hyperparameter constant `SYNC_TARGET_FRAMES = 1000` (line 34). -/
def SYNC_TARGET_FRAMES : Nat := 1000

/-- Hyperparameter constant `REPLAY_START_SIZE = 10_000` (line 35). -/
def REPLAY_START_SIZE : Nat := 10000

/-- Hyperparameter constant `EPSILON_DECAY_LAST_FRAME = 150_000` (line 37). -/
def EPSILON_DECAY_LAST_FRAME : Nat := 150000

/-- Hyperparameter constant `EPSILON_START = 1.0` (line 38). -/
def EPSILON_START : ℚ := 1

/-- Hyperparameter constant `EPSILON_FINAL = 0.01` (line 39). -/
def EPSILON_FINAL : ℚ := 1 / 100

/-- Hyperparameter constant `MEAN_REWARD_BOUND = 19` (line 28). -/
def MEAN_REWARD_BOUND : ℚ := 19

/-- The `Experience` namedtuple (lines 43-45): one transition
`(state, action, reward, done, new_state)`.  The state type `S` is abstract
(in the source it is a stacked-frame observation array); actions are the
indices of a discrete action space; rewards are floats, embedded as `ℚ`. -/
structure Experience (S : Type) where
  state : S
  action : Nat
  reward : ℚ
  done : Bool
  new_state : S
deriving DecidableEq

instance {S : Type} [Inhabited S] : Inhabited (Experience S) :=
  ⟨{ state := default, action := 0, reward := 0, done := false, new_state := default }⟩

/-- The `ExperienceBuffer` class (lines 48-71).  Its single field is
`self.buffer = collections.deque(maxlen=capacity)` (line 53); the deque is
embedded as the list of its elements, oldest first, together with the
`maxlen` bound. -/
structure ExperienceBuffer (S : Type) where
  capacity : Nat
  buffer : List (Experience S)
deriving DecidableEq

/-- `ExperienceBuffer.__init__` (lines 52-53): a fresh empty deque with the
given `maxlen`. -/
def ExperienceBuffer.init (S : Type) (capacity : Nat) : ExperienceBuffer S :=
  { capacity := capacity, buffer := [] }

/-- `ExperienceBuffer.__len__` (lines 55-56). -/
def ExperienceBuffer.size {S : Type} (b : ExperienceBuffer S) : Nat :=
  b.buffer.length

/-- `ExperienceBuffer.append` (lines 58-59): `self.buffer.append(experience)`.
A `deque` with `maxlen` appends on the right and, when full, discards from the
left so that the length never exceeds `maxlen`; dropping
`length + 1 - capacity` elements (truncated subtraction, hence `0` while the
deque is below capacity and `1` once it is full) is exactly that rule. -/
def ExperienceBuffer.append {S : Type} (b : ExperienceBuffer S) (x : Experience S) :
    ExperienceBuffer S :=
  { b with buffer := (b.buffer ++ [x]).drop (b.buffer.length + 1 - b.capacity) }

/-- A whole sequence of `append` calls, oldest first. -/
def ExperienceBuffer.appendAll {S : Type} (b : ExperienceBuffer S)
    (xs : List (Experience S)) : ExperienceBuffer S :=
  xs.foldl ExperienceBuffer.append b

theorem ExperienceBuffer.size_append {S : Type} (b : ExperienceBuffer S) (x : Experience S) :
    (b.append x).size = min (b.size + 1) b.capacity := by
  simp only [ExperienceBuffer.append, ExperienceBuffer.size, List.length_drop,
    List.length_append, List.length_cons, List.length_nil]
  omega

theorem ExperienceBuffer.getLast?_append_buffer {S : Type} (b : ExperienceBuffer S)
    (x : Experience S) (hC : 0 < b.capacity) :
    (b.append x).buffer.getLast? = some x := by
  simp only [ExperienceBuffer.append]
  rw [List.drop_append_of_le_length (by omega), List.getLast?_concat]

theorem ExperienceBuffer.appendAll_buffer {S : Type} (C : Nat) (l xs : List (Experience S))
    (hl : l.length ≤ C) :
    ((ExperienceBuffer.appendAll ⟨C, l⟩ xs)).buffer =
      (l ++ xs).drop (l.length + xs.length - C) := by
  induction xs generalizing l with
  | nil =>
    simp only [ExperienceBuffer.appendAll, List.foldl_nil, List.append_nil, List.length_nil]
    rw [Nat.add_zero, Nat.sub_eq_zero_of_le hl, List.drop_zero]
  | cons x xs ih =>
    have hstep : ExperienceBuffer.append ⟨C, l⟩ x =
        ⟨C, (l ++ [x]).drop (l.length + 1 - C)⟩ := rfl
    have hlen : ((l ++ [x]).drop (l.length + 1 - C)).length ≤ C := by
      simp only [List.length_drop, List.length_append, List.length_cons, List.length_nil]
      omega
    have := ih ((l ++ [x]).drop (l.length + 1 - C)) hlen
    simp only [ExperienceBuffer.appendAll, List.foldl_cons] at *
    rw [hstep, this]
    rw [← @List.drop_append_of_le_length _ (l ++ [x]) xs (l.length + 1 - C) (by simp)]
    rw [List.drop_drop, List.append_assoc, List.singleton_append]
    congr 1
    simp only [List.length_drop, List.length_append, List.length_cons, List.length_nil]
    omega

theorem ExperienceBuffer.size_le_capacity {S : Type} (C : Nat)
    (xs : List (Experience S)) :
    (ExperienceBuffer.appendAll (ExperienceBuffer.init S C) xs).size ≤ C := by
  have h := ExperienceBuffer.appendAll_buffer C [] xs (by simp)
  simp only [ExperienceBuffer.size, ExperienceBuffer.init]
  rw [h]
  simp only [List.length_drop, List.nil_append, List.length_nil]
  omega

/-- C2: for every sequence of `append` calls on a buffer of capacity `C > 0`,
the occupancy never exceeds `C` (stated for every insertion sequence `ys`,
hence for every prefix of `xs` as well), and after inserting `C + k` items
(`k > 0`) the buffer holds exactly the last `C` inserted items, in insertion
order: the first `k` are the evicted oldest ones. -/
theorem claim_C2_capacity_invariant {S : Type} (C k : Nat) (xs : List (Experience S))
    (hC : 0 < C) (hk : 0 < k) (hlen : xs.length = C + k) :
    (∀ ys : List (Experience S),
        (ExperienceBuffer.appendAll (ExperienceBuffer.init S C) ys).size ≤ C) ∧
    (ExperienceBuffer.appendAll (ExperienceBuffer.init S C) xs).buffer = xs.drop k := by
  refine ⟨fun ys => ExperienceBuffer.size_le_capacity C ys, ?_⟩
  have h := ExperienceBuffer.appendAll_buffer C [] xs (by simp)
  simp only [ExperienceBuffer.init] at h ⊢
  rw [h]
  simp only [List.nil_append, List.length_nil, Nat.zero_add, hlen]
  congr 1
  omega

/-- C2 witness: capacity 2, five insertions, the buffer ends as the last two. -/
theorem claim_C2_capacity_invariant_witness :
    (ExperienceBuffer.appendAll (ExperienceBuffer.init Nat 2)
        [⟨0, 0, 0, false, 1⟩, ⟨1, 0, 0, false, 2⟩, ⟨2, 0, 0, false, 3⟩,
         ⟨3, 0, 0, false, 4⟩, ⟨4, 0, 0, false, 5⟩]).buffer =
      [⟨3, 0, 0, false, 4⟩, ⟨4, 0, 0, false, 5⟩] := by
  have h := @claim_C2_capacity_invariant Nat 2 3
    [⟨0, 0, 0, false, 1⟩, ⟨1, 0, 0, false, 2⟩, ⟨2, 0, 0, false, 3⟩,
     ⟨3, 0, 0, false, 4⟩, ⟨4, 0, 0, false, 5⟩]
    (by decide) (by decide) (by decide)
  rw [h.2]
  rfl

/-- Error raised when sampling requests more transitions than the buffer
holds: in the source, line 64's `np.random.choice(len(self.buffer),
batch_size, replace=False)` raises for such a request (numpy refuses to take
a sample larger than the population without replacement); the spec names this
failure `InsufficientDataError`. -/
inductive InsufficientDataError where
  | insufficientData
deriving DecidableEq

/-- The structure-of-arrays return value of `ExperienceBuffer.sample`
(lines 66-71): five parallel arrays, one per `Experience` field. -/
structure SampleBatch (S : Type) where
  states : List S
  actions : List Nat
  rewards : List ℚ
  dones : List Bool
  next_states : List S
deriving DecidableEq

/-- The `zip(*[...])` + `np.array(...)` reassembly of lines 66-71: a list of
experiences turned into five parallel arrays. -/
def SampleBatch.ofExperiences {S : Type} (chosen : List (Experience S)) : SampleBatch S :=
  { states := chosen.map Experience.state
    actions := chosen.map Experience.action
    rewards := chosen.map Experience.reward
    dones := chosen.map Experience.done
    next_states := chosen.map Experience.new_state }

/-- The list comprehension `[self.buffer[idx] for idx in indices]` (line 67),
with `indices` the array returned by `np.random.choice`. -/
def ExperienceBuffer.sampledExperiences {S : Type} [Inhabited S] (b : ExperienceBuffer S)
    (draw : List Nat) : List (Experience S) :=
  draw.map (fun i => b.buffer.getD i default)

/-- `ExperienceBuffer.sample` (lines 61-71), as explicit state passing: the
result of the call together with the buffer state after it (the method only
reads `self.buffer`, so the state comes back unchanged).  The randomness of
`np.random.choice(len(self.buffer), batch_size, replace=False)` is passed in
as `draw`; numpy raises before drawing when `batch_size` exceeds the
population `len(self.buffer)`, and otherwise guarantees `batch_size` distinct
in-range indices (those guarantees appear as hypotheses of the theorems). -/
def ExperienceBuffer.sample {S : Type} [Inhabited S] (b : ExperienceBuffer S)
    (batch_size : Nat) (draw : List Nat) :
    Except InsufficientDataError (SampleBatch S) × ExperienceBuffer S :=
  if batch_size ≤ b.buffer.length then
    (Except.ok (SampleBatch.ofExperiences (b.sampledExperiences draw)), b)
  else
    (Except.error InsufficientDataError.insufficientData, b)

theorem length_filter_range_getD {α : Type} [DecidableEq α] (d x : α) (l : List α) :
    ((List.range l.length).filter (fun j => l.getD j d == x)).length = l.count x := by
  induction l with
  | nil => simp
  | cons a t ih =>
    rw [List.length_cons, List.range_succ_eq_map, List.filter_cons, List.filter_map]
    have hcomp : ((fun j => (a :: t).getD j d == x) ∘ Nat.succ) =
        (fun j => t.getD j d == x) := by
      funext j
      rfl
    rw [hcomp]
    by_cases hax : a = x
    · subst hax
      have h0 : ((a :: t).getD 0 d == a) = true := by
        rw [List.getD_cons_zero]
        exact beq_self_eq_true a
      rw [h0, if_pos rfl, List.length_cons, List.length_map, ih, List.count_cons_self]
    · have h0 : ((a :: t).getD 0 d == x) = false := by
        rw [List.getD_cons_zero]
        exact beq_eq_false_iff_ne.2 hax
      rw [h0]
      have hne : x ≠ a := fun h => hax h.symm
      rw [if_neg (by simp), List.length_map, ih, List.count_cons_of_ne hne]

/-- Mapping a nodup, in-range list of indices through lookup yields a
sub-permutation of the list: the without-replacement sample is a sub-multiset
of the buffer contents. -/
theorem getD_map_subperm {α : Type} [DecidableEq α] (l : List α) (d : α) (is : List Nat)
    (hnd : is.Nodup) (hbd : ∀ i ∈ is, i < l.length) :
    List.Subperm (is.map (fun i => l.getD i d)) l := by
  rw [List.subperm_ext_iff]
  intro x hx
  rw [List.count_eq_countP, List.countP_map, List.countP_eq_length_filter]
  have hcomp : ((fun y => y == x) ∘ fun i => l.getD i d) =
      (fun i => l.getD i d == x) := rfl
  rw [hcomp]
  have hsub : is.filter (fun i => l.getD i d == x) ⊆
      (List.range l.length).filter (fun j => l.getD j d == x) := by
    intro j hj
    rcases List.mem_filter.1 hj with ⟨hji, hjx⟩
    exact List.mem_filter.2 ⟨List.mem_range.2 (hbd j hji), hjx⟩
  have hle := ((hnd.filter _).subperm hsub).length_le
  calc (is.filter (fun i => l.getD i d == x)).length
      ≤ ((List.range l.length).filter (fun j => l.getD j d == x)).length := hle
    _ = l.count x := length_filter_range_getD d x l

/-- C3: on a buffer of occupancy `m` with `0 < n ≤ m`, `sample n` succeeds;
the `n` sampled indices are distinct (without replacement), the sampled
experiences form a sub-permutation of — in particular are all drawn from —
the current buffer contents, and the buffer state after the call is
unchanged.  The hypotheses on `draw` are the documented guarantees of
`np.random.choice(m, n, replace=False)`. -/
theorem claim_C3_sampling_validity {S : Type} [Inhabited S] [DecidableEq S]
    (b : ExperienceBuffer S) (n : Nat) (draw : List Nat)
    (hn : 0 < n) (hm : n ≤ b.size)
    (hdl : draw.length = n) (hnd : draw.Nodup) (hbd : ∀ i ∈ draw, i < b.size) :
    (b.sample n draw).1 = Except.ok (SampleBatch.ofExperiences (b.sampledExperiences draw)) ∧
    (b.sampledExperiences draw).length = n ∧
    List.Subperm (b.sampledExperiences draw) b.buffer ∧
    (b.sample n draw).2 = b := by
  have hm' : n ≤ b.buffer.length := hm
  refine ⟨?_, ?_, ?_, ?_⟩
  · rw [ExperienceBuffer.sample, if_pos hm']
  · rw [ExperienceBuffer.sampledExperiences, List.length_map, hdl]
  · exact getD_map_subperm b.buffer default draw hnd hbd
  · rw [ExperienceBuffer.sample]
    split <;> rfl

/-- A concrete two-element buffer (capacity 3) used to exercise sampling. -/
def sampleDemoBuffer : ExperienceBuffer Nat :=
  { capacity := 3,
    buffer := [{ state := 10, action := 0, reward := 1, done := false, new_state := 11 },
               { state := 11, action := 1, reward := 2, done := true, new_state := 12 }] }

/-- C3 witness: the two-element demo buffer sampled with `n = 2` and the
valid draw `[1, 0]`. -/
theorem claim_C3_sampling_validity_witness :
    (sampleDemoBuffer.sample 2 [1, 0]).1 =
      Except.ok (SampleBatch.ofExperiences (sampleDemoBuffer.sampledExperiences [1, 0])) ∧
    (sampleDemoBuffer.sampledExperiences [1, 0]).length = 2 ∧
    List.Subperm (sampleDemoBuffer.sampledExperiences [1, 0]) sampleDemoBuffer.buffer ∧
    (sampleDemoBuffer.sample 2 [1, 0]).2 = sampleDemoBuffer :=
  claim_C3_sampling_validity sampleDemoBuffer 2 [1, 0]
    (by decide) (by decide) (by decide) (by decide) (by decide)

/-- C4: requesting more transitions than the buffer currently stores makes
`sample` itself fail with `InsufficientDataError` — the guard sits in the
buffer's own sampling call (line 64), not in the training-loop caller — and
the failure is an error value, not a sentinel result; the buffer state is
untouched. -/
theorem claim_C4_guard_against_oversampling {S : Type} [Inhabited S]
    (b : ExperienceBuffer S) (batch_size : Nat) (draw : List Nat)
    (h : b.size < batch_size) :
    (b.sample batch_size draw).1 =
      Except.error InsufficientDataError.insufficientData ∧
    (b.sample batch_size draw).2 = b := by
  have h' : ¬ batch_size ≤ b.buffer.length := Nat.not_le.2 h
  rw [ExperienceBuffer.sample, if_neg h']
  exact ⟨rfl, rfl⟩

/-- A concrete one-element buffer (capacity 5) used to exercise the guard. -/
def smallDemoBuffer : ExperienceBuffer Nat :=
  { capacity := 5,
    buffer := [{ state := 0, action := 0, reward := 1, done := false, new_state := 1 }] }

/-- C4 witness: sampling 3 from a buffer holding 1 experience fails. -/
theorem claim_C4_guard_against_oversampling_witness :
    (smallDemoBuffer.sample 3 []).1 =
      Except.error InsufficientDataError.insufficientData ∧
    (smallDemoBuffer.sample 3 []).2 = smallDemoBuffer :=
  claim_C4_guard_against_oversampling smallDemoBuffer 3 [] (by decide)

/-- The maximum over the action dimension of one row of network output:
`.max(1)[0]` in line 128.  A discrete action space has at least one action, so
the row is nonempty; folding `max` from the head computes its maximum. -/
def torchMax (q : List ℚ) : ℚ :=
  q.foldl max (q.headD 0)

/-- One row of `net(states_v).gather(1, actions_v.unsqueeze(-1)).squeeze(-1)`
(lines 125-126): the value the online net assigns to the action actually
taken.  In every reachable batch the action index is in range. -/
def state_action_values {S : Type} (net : S → List ℚ) (states : List S)
    (actions : List Nat) : List ℚ :=
  List.zipWith (fun s a => (net s).getD a 0) states actions

/-- `next_state_values = tgt_net(next_states_v).max(1)[0]` (line 128),
computed inside `torch.no_grad()` from the target net only. -/
def next_state_values {S : Type} (tgt_net : S → List ℚ) (next_states : List S) : List ℚ :=
  next_states.map (fun s => torchMax (tgt_net s))

/-- `next_state_values[done_mask] = 0.0` (line 129): the continuation value is
overwritten with zero at every index whose transition is terminal. -/
def maskTerminal (vals : List ℚ) (dones : List Bool) : List ℚ :=
  List.zipWith (fun v dn => if dn then 0 else v) vals dones

/-- `expected_state_action_values = next_state_values * GAMMA + rewards_v`
(line 132): the Bellman targets of the batch. -/
def expected_state_action_values {S : Type} (tgt_net : S → List ℚ)
    (batch : SampleBatch S) : List ℚ :=
  List.zipWith (fun v r => v * GAMMA + r)
    (maskTerminal (next_state_values tgt_net batch.next_states) batch.dones)
    batch.rewards

/-- `nn.MSELoss()` with its default mean reduction (lines 133-134). -/
def mseLoss (pred tgt : List ℚ) : ℚ :=
  ((List.zipWith (fun p t => (p - t) ^ 2) pred tgt).foldl (· + ·) 0) / (pred.length : ℚ)

/-- `calc_loss` (lines 114-134) on an already-assembled batch; the two nets
enter only through their forward functions, and no gradient information flows
through `tgt_net` (the embedding is purely functional, matching the
`torch.no_grad()` / `detach()` protection of lines 127-130). -/
def calc_loss {S : Type} (net tgt_net : S → List ℚ) (batch : SampleBatch S) : ℚ :=
  mseLoss (state_action_values net batch.states batch.actions)
    (expected_state_action_values tgt_net batch)

/-- C1: in `calc_loss`, wherever `dones[i]` is true the Bellman target equals
exactly `rewards[i]`: the continuation term is zeroed whatever
`next_states[i]` and the target net say. -/
theorem claim_C1_terminal_target_is_reward {S : Type} (tgt_net : S → List ℚ)
    (batch : SampleBatch S) (i : Nat)
    (hr : i < batch.rewards.length) (hdn : i < batch.dones.length)
    (hns : i < batch.next_states.length)
    (hdone : batch.dones.getD i false = true) :
    (expected_state_action_values tgt_net batch).getD i 0 = batch.rewards.getD i 0 := by
  have h1 : i < (next_state_values tgt_net batch.next_states).length := by
    rw [next_state_values, List.length_map]
    exact hns
  have h2 : i < (maskTerminal (next_state_values tgt_net batch.next_states)
      batch.dones).length := by
    rw [maskTerminal, List.length_zipWith]
    omega
  have h3 : i < (expected_state_action_values tgt_net batch).length := by
    rw [expected_state_action_values, List.length_zipWith]
    omega
  rw [List.getD_eq_getElem _ _ h3, List.getD_eq_getElem _ _ hr]
  rw [List.getD_eq_getElem _ _ hdn] at hdone
  simp only [expected_state_action_values, maskTerminal, next_state_values,
    List.getElem_zipWith, List.getElem_map, hdone, if_true, zero_mul, zero_add]

/-- C1 witness: a one-transition terminal batch whose target net would love to
continue with value 5; the target is nonetheless the bare reward 7. -/
theorem claim_C1_terminal_target_is_reward_witness :
    (expected_state_action_values (fun _ => [5, 5])
        { states := [0], actions := [1], rewards := [7], dones := [true],
          next_states := [99] }).getD 0 0 =
      ([(7 : ℚ)].getD 0 0 : ℚ) :=
  @claim_C1_terminal_target_is_reward Nat (fun _ => [5, 5])
    { states := [0], actions := [1], rewards := [7], dones := [true], next_states := [99] }
    0 (by decide) (by decide) (by decide) (by decide)

/-- The exploration schedule of lines 169-170:
`epsilon = max(EPSILON_FINAL, EPSILON_START - frame_idx /
EPSILON_DECAY_LAST_FRAME)`, a pure function of the frame counter. -/
def epsilon (frame_idx : Nat) : ℚ :=
  max EPSILON_FINAL (EPSILON_START - (frame_idx : ℚ) / (EPSILON_DECAY_LAST_FRAME : ℚ))

/-- C7: the schedule is monotonically non-increasing in the step counter and
never goes below `EPSILON_FINAL`. -/
theorem claim_C7_epsilon_schedule (step1 step2 : Nat) (h : step1 < step2) :
    epsilon step2 ≤ epsilon step1 ∧ ∀ step : Nat, EPSILON_FINAL ≤ epsilon step := by
  constructor
  · apply max_le_max le_rfl
    apply sub_le_sub_left
    have hD : (0 : ℚ) < (EPSILON_DECAY_LAST_FRAME : ℚ) := by
      rw [EPSILON_DECAY_LAST_FRAME]
      norm_num
    exact (div_le_div_iff_of_pos_right hD).2 (by exact_mod_cast h.le)
  · intro step
    exact le_max_left _ _

/-- C7 witness: the schedule at steps 1 and 2. -/
theorem claim_C7_epsilon_schedule_witness : epsilon 2 ≤ epsilon 1 :=
  (claim_C7_epsilon_schedule 1 2 (by decide)).1

/-- The result quintuple of `self.env.step(action)` (line 101), minus the
ignored `info` dict. -/
structure EnvStepResult (S : Type) where
  new_state : S
  reward : ℚ
  terminated : Bool
  truncated : Bool
deriving DecidableEq

/-- The environment collaborator: `reset` and `step` of the gymnasium
interface, as a deterministic transition system over an internal environment
state `E` (the simulator's own state). -/
structure Env (S E : Type) where
  reset : E → S × E
  step : E → Nat → EnvStepResult S × E

/-- The agent's mutable fields `self.state` and `self.total_reward`
(lines 78, 82-83), plus the environment's internal state, passed explicitly. -/
structure AgentState (S E : Type) where
  envState : E
  state : S
  total_reward : ℚ
deriving DecidableEq

/-- `Agent._reset` (lines 81-83): `self.state, _ = self.env.reset()` and
`self.total_reward = 0.0`. -/
def Agent._reset {S E : Type} (env : Env S E) (a : AgentState S E) : AgentState S E :=
  { envState := (env.reset a.envState).2
    state := (env.reset a.envState).1
    total_reward := 0 }

/-- First-occurrence argmax over one row of Q-values:
`_, act_v = torch.max(q_vals_v, dim=1)` (line 97) returns the index of the
first maximal entry. -/
def torchArgmax (q : List ℚ) : Nat :=
  q.indexOf (torchMax q)

/-- The epsilon-greedy action choice of lines 91-98.  `useRandom` is the
outcome of `np.random.random() < epsilon` and `randomAction` the outcome of
`self.env.action_space.sample()`; the greedy branch evaluates the online net
on the current state. -/
def chosenAction {S : Type} (net : S → List ℚ) (useRandom : Bool) (randomAction : Nat)
    (s : S) : Nat :=
  if useRandom then randomAction else torchArgmax (net s)

/-- `Agent.play_step` (lines 85-111) as explicit state passing: from the
agent's state and the shared buffer it returns `done_reward` (`None` unless
the episode just terminated), the new agent state, and the new buffer.  The
body follows the source line by line: choose the action, step the
environment, accumulate the reward, set `is_done = terminated` (line 103,
`truncated` is bound on line 101 but never used), append the transition,
advance `self.state` to `new_state`, and on `is_done` return the episode
total after `_reset`. -/
def Agent.play_step {S E : Type} (env : Env S E) (net : S → List ℚ)
    (useRandom : Bool) (randomAction : Nat)
    (a : AgentState S E) (buf : ExperienceBuffer S) :
    Option ℚ × AgentState S E × ExperienceBuffer S :=
  let action := chosenAction net useRandom randomAction a.state
  let res := (env.step a.envState action).1
  let envState2 := (env.step a.envState action).2
  let total := a.total_reward + res.reward
  let is_done := res.terminated
  let exp : Experience S :=
    { state := a.state, action := action, reward := res.reward,
      done := is_done, new_state := res.new_state }
  let buf2 := buf.append exp
  let a2 : AgentState S E :=
    { envState := envState2, state := res.new_state, total_reward := total }
  if is_done then (some total, Agent._reset env a2, buf2) else (none, a2, buf2)

/-- C5: whatever branch the epsilon-greedy draw takes and whatever
`terminated` / `truncated` flags the environment reports, the transition
stored by `play_step` (the newest element of the buffer) carries
`done = terminated`; `truncated` appears nowhere in it. -/
theorem claim_C5_done_is_terminated {S E : Type} (env : Env S E) (net : S → List ℚ)
    (useRandom : Bool) (randomAction : Nat)
    (a : AgentState S E) (buf : ExperienceBuffer S)
    (res : EnvStepResult S) (e2 : E)
    (hstep : env.step a.envState (chosenAction net useRandom randomAction a.state) = (res, e2))
    (hC : 0 < buf.capacity) :
    (Agent.play_step env net useRandom randomAction a buf).2.2.buffer.getLast? =
      some { state := a.state, action := chosenAction net useRandom randomAction a.state,
             reward := res.reward, done := res.terminated,
             new_state := res.new_state } := by
  rw [Agent.play_step]
  simp only [hstep]
  split <;> exact ExperienceBuffer.getLast?_append_buffer buf _ hC

/-- C6: `play_step` returns the accumulated episode reward (including the
final step's reward) exactly when the environment reports `terminated`, and
`None` otherwise; on termination the accumulator restarts from zero and the
agent re-enters at a fresh reset state, otherwise the accumulator keeps the
running total. -/
theorem claim_C6_episode_reward_accounting {S E : Type} (env : Env S E)
    (net : S → List ℚ) (useRandom : Bool) (randomAction : Nat)
    (a : AgentState S E) (buf : ExperienceBuffer S)
    (res : EnvStepResult S) (e2 : E)
    (hstep : env.step a.envState (chosenAction net useRandom randomAction a.state) = (res, e2)) :
    (Agent.play_step env net useRandom randomAction a buf).1 =
      (if res.terminated = true then some (a.total_reward + res.reward) else none) ∧
    (Agent.play_step env net useRandom randomAction a buf).2.1.total_reward =
      (if res.terminated = true then 0 else a.total_reward + res.reward) ∧
    (res.terminated = true →
      (Agent.play_step env net useRandom randomAction a buf).2.1.state =
        (env.reset e2).1) := by
  rw [Agent.play_step]
  simp only [hstep]
  by_cases hterm : res.terminated = true
  · simp [hterm, Agent._reset]
  · simp [hterm]

/-- A concrete test environment for the episode-accounting scenario of the
spec: reward `1.0` on every step and termination after exactly 5 steps of an
episode.  The internal state counts the steps taken in the current episode
and doubles as the observation. -/
def scenarioEnv : Env Nat Nat where
  reset := fun _ => (0, 0)
  step := fun e _ =>
    ({ new_state := e + 1, reward := 1, terminated := e + 1 == 5, truncated := false }, e + 1)

/-- A concrete test environment whose episodes are cut off by a time limit:
every step reports `truncated = true` but `terminated = false`. -/
def truncEnv : Env Nat Nat where
  reset := fun _ => (0, 0)
  step := fun e _ =>
    ({ new_state := e + 1, reward := 1, terminated := false, truncated := true }, e + 1)

/-- A trivial online net for the scenarios (one action, value zero). -/
def scenarioNet : Nat → List ℚ := fun _ => [0]

/-- The scenario run: starting from a freshly reset agent and an empty buffer
of capacity 100, call `play_step` repeatedly (always taking the random branch
with action 0; the action is irrelevant to `scenarioEnv`). -/
def scenarioRun : Nat → Option ℚ × AgentState Nat Nat × ExperienceBuffer Nat
  | 0 => (none, { envState := 0, state := 0, total_reward := 0 },
      { capacity := 100, buffer := [] })
  | n + 1 =>
    Agent.play_step scenarioEnv scenarioNet true 0 (scenarioRun n).2.1 (scenarioRun n).2.2

/-- C5 witness: one step in the time-limit environment.  The environment
reports `truncated = true, terminated = false`, and the stored transition has
`done = false`. -/
theorem claim_C5_done_is_terminated_witness :
    (Agent.play_step truncEnv scenarioNet true 0
        { envState := 0, state := 0, total_reward := 0 }
        { capacity := 100, buffer := [] }).2.2.buffer.getLast? =
      some { state := 0, action := 0, reward := 1, done := false, new_state := 1 } :=
  claim_C5_done_is_terminated truncEnv scenarioNet true 0
    { envState := 0, state := 0, total_reward := 0 }
    { capacity := 100, buffer := [] }
    { new_state := 1, reward := 1, terminated := false, truncated := true } 1
    (by decide) (by decide)

/-- C6 witness: the spec's scenario.  Calls 1-4 return no value, call 5
returns the episode total `5.0`, and call 6 has resumed accumulating from
zero (its running total is `1.0`).  Call 5 is obtained through the general
theorem. -/
theorem scenarioRun_4_eq :
    scenarioRun 4 = (none, { envState := 4, state := 4, total_reward := 4 },
      { capacity := 100, buffer :=
        [{ state := 0, action := 0, reward := 1, done := false, new_state := 1 },
         { state := 1, action := 0, reward := 1, done := false, new_state := 2 },
         { state := 2, action := 0, reward := 1, done := false, new_state := 3 },
         { state := 3, action := 0, reward := 1, done := false, new_state := 4 }] }) := by
  norm_num [scenarioRun, Agent.play_step, Agent._reset, chosenAction, scenarioEnv,
    scenarioNet, ExperienceBuffer.append]

theorem claim_C6_episode_reward_accounting_witness :
    (scenarioRun 1).1 = none ∧ (scenarioRun 2).1 = none ∧ (scenarioRun 3).1 = none ∧
    (scenarioRun 4).1 = none ∧ (scenarioRun 5).1 = some 5 ∧
    (scenarioRun 6).1 = none ∧ (scenarioRun 6).2.1.total_reward = 1 := by
  have hrw : ∀ n : Nat, scenarioRun (n + 1) =
      Agent.play_step scenarioEnv scenarioNet true 0
        (scenarioRun n).2.1 (scenarioRun n).2.2 := fun n => rfl
  refine ⟨?_, ?_, ?_, ?_, ?_, ?_, ?_⟩
  · norm_num [scenarioRun, Agent.play_step, Agent._reset, chosenAction, scenarioEnv,
      scenarioNet, ExperienceBuffer.append]
  · norm_num [scenarioRun, Agent.play_step, Agent._reset, chosenAction, scenarioEnv,
      scenarioNet, ExperienceBuffer.append]
  · norm_num [scenarioRun, Agent.play_step, Agent._reset, chosenAction, scenarioEnv,
      scenarioNet, ExperienceBuffer.append]
  · norm_num [scenarioRun, Agent.play_step, Agent._reset, chosenAction, scenarioEnv,
      scenarioNet, ExperienceBuffer.append]
  · have h := claim_C6_episode_reward_accounting scenarioEnv scenarioNet true 0
      (scenarioRun 4).2.1 (scenarioRun 4).2.2
      { new_state := 5, reward := 1, terminated := true, truncated := false } 5
      (by rw [scenarioRun_4_eq]; norm_num [chosenAction, scenarioEnv, scenarioNet])
    have h51 := h.1
    rw [if_pos rfl] at h51
    rw [show (5 : Nat) = 4 + 1 from rfl, hrw 4, h51, scenarioRun_4_eq]
    norm_num
  · norm_num [scenarioRun, Agent.play_step, Agent._reset, chosenAction, scenarioEnv,
      scenarioNet, ExperienceBuffer.append]
  · rw [show (6 : Nat) = 5 + 1 from rfl, hrw 5, show (5 : Nat) = 4 + 1 from rfl, hrw 4,
      scenarioRun_4_eq]
    norm_num [Agent.play_step, Agent._reset, chosenAction, scenarioEnv,
      scenarioNet, ExperienceBuffer.append]

/-- C10 (amended): every `play_step` call, whichever epsilon-greedy branch is
taken and whatever flags come back, appends exactly one transition to the
shared buffer (occupancy becomes `min (previous + 1) capacity`); the agent's
state afterwards is the returned `next_state` on non-terminal steps, but on a
terminated step `_reset` has already replaced it with a fresh reset state. -/
theorem claim_C10_single_append_and_state {S E : Type} (env : Env S E)
    (net : S → List ℚ) (useRandom : Bool) (randomAction : Nat)
    (a : AgentState S E) (buf : ExperienceBuffer S)
    (res : EnvStepResult S) (e2 : E)
    (hstep : env.step a.envState (chosenAction net useRandom randomAction a.state) = (res, e2)) :
    (Agent.play_step env net useRandom randomAction a buf).2.2 =
      buf.append { state := a.state,
                   action := chosenAction net useRandom randomAction a.state,
                   reward := res.reward, done := res.terminated,
                   new_state := res.new_state } ∧
    (Agent.play_step env net useRandom randomAction a buf).2.2.size =
      min (buf.size + 1) buf.capacity ∧
    (Agent.play_step env net useRandom randomAction a buf).2.1.state =
      (if res.terminated = true then (env.reset e2).1 else res.new_state) := by
  rw [Agent.play_step]
  simp only [hstep]
  by_cases hterm : res.terminated = true
  · simp [hterm, Agent._reset, ExperienceBuffer.size_append]
  · simp [hterm, ExperienceBuffer.size_append]

/-- C10 witness: the fifth scenario call appends one transition (occupancy
4 + 1 = 5 = min (4+1) 100) and, because it terminates the episode, leaves the
agent at the reset state. -/
theorem claim_C10_single_append_and_state_witness :
    (Agent.play_step scenarioEnv scenarioNet true 0
        (scenarioRun 4).2.1 (scenarioRun 4).2.2).2.1.state = 0 := by
  have h := claim_C10_single_append_and_state scenarioEnv scenarioNet true 0
    (scenarioRun 4).2.1 (scenarioRun 4).2.2
    { new_state := 5, reward := 1, terminated := true, truncated := false } 5
    (by rw [scenarioRun_4_eq]; norm_num [chosenAction, scenarioEnv, scenarioNet])
  rw [h.2.2, if_pos rfl]
  rfl

/-- C10 counterexample to the claim as stated: on the fifth scenario call the
environment returns `next_state = 5` (recorded in the stored transition), yet
after the call the agent's current state is the reset state `0`, not `5`. -/
theorem claim_C10_state_not_next_state_counterexample :
    (scenarioRun 5).2.2.buffer.getLast? =
      some { state := 4, action := 0, reward := 1, done := true, new_state := 5 } ∧
    (scenarioRun 5).2.1.state = 0 ∧ (0 : Nat) ≠ 5 := by
  have hrw : scenarioRun 5 =
      Agent.play_step scenarioEnv scenarioNet true 0
        (scenarioRun 4).2.1 (scenarioRun 4).2.2 := rfl
  rw [hrw, scenarioRun_4_eq]
  refine ⟨?_, ?_, by decide⟩
  · norm_num [Agent.play_step, Agent._reset, chosenAction, scenarioEnv, scenarioNet,
      ExperienceBuffer.append]
  · norm_num [Agent.play_step, Agent._reset, chosenAction, scenarioEnv, scenarioNet,
      ExperienceBuffer.append]

/-- The training loop's state (lines 156-209) as far as the sync cadence is
concerned: the frame counter `frame_idx`, the buffer occupancy (one
transition is appended per tick by `agent.play_step`), and the parameters of
the online and target nets.  Parameter vectors are abstracted to version
numbers: the two nets are initialized independently (lines 149-152), so
their initial versions differ, and each `optimizer.step()` (line 209)
produces a fresh online version. -/
structure LoopState where
  frame_idx : Nat
  bufLen : Nat
  netParams : Nat
  tgtParams : Nat
deriving DecidableEq

/-- One iteration of the `while True` body (lines 167-209), restricted to the
fields of `LoopState` (the episode bookkeeping of lines 173-197 touches
neither net and only ever exits the loop): increment `frame_idx` (line 168);
`play_step` appends one transition (line 172, so occupancy grows to
`min (len+1) REPLAY_SIZE`); if `len(buffer) < REPLAY_START_SIZE`, `continue`
(lines 199-200) — no sync, no gradient step; otherwise sync the target when
`frame_idx % SYNC_TARGET_FRAMES == 0` (lines 202-203, copying the online
parameters before the update) and then take one optimizer step (lines
205-209). -/
def loopIter (st : LoopState) : LoopState :=
  if min (st.bufLen + 1) REPLAY_SIZE < REPLAY_START_SIZE then
    { frame_idx := st.frame_idx + 1, bufLen := min (st.bufLen + 1) REPLAY_SIZE,
      netParams := st.netParams, tgtParams := st.tgtParams }
  else
    { frame_idx := st.frame_idx + 1, bufLen := min (st.bufLen + 1) REPLAY_SIZE,
      netParams := st.netParams + 1,
      tgtParams := if (st.frame_idx + 1) % SYNC_TARGET_FRAMES = 0 then st.netParams
        else st.tgtParams }

/-- The loop's initial state (lines 149-166): empty buffer, frame counter 0,
and freshly (independently) initialized online and target nets, abstracted as
versions 1 and 0. -/
def loopInit : LoopState :=
  { frame_idx := 0, bufLen := 0, netParams := 1, tgtParams := 0 }

theorem loopIter_warmup (t : Nat) (ht : t < REPLAY_START_SIZE) :
    loopIter^[t] loopInit =
      { frame_idx := t, bufLen := t, netParams := 1, tgtParams := 0 } := by
  induction t with
  | zero => rfl
  | succ n ih =>
    have hn : n < REPLAY_START_SIZE := by omega
    rw [Function.iterate_succ_apply', ih hn]
    rw [REPLAY_START_SIZE] at ht
    have hmin : min (n + 1) REPLAY_SIZE = n + 1 := by
      rw [REPLAY_SIZE]
      omega
    rw [loopIter]
    simp only [hmin]
    rw [if_pos (by rw [REPLAY_START_SIZE]; omega)]

/-- C8 counterexample to the claim as stated: step 1000 is a multiple of
`SYNC_TARGET_FRAMES = 1000`, yet after 1000 loop iterations the target
parameters are untouched (still the initial ones) and differ from the online
parameters: the warm-up gate `len(buffer) < REPLAY_START_SIZE` (lines
199-200) skips the sync at every multiple of 1000 below 10000. -/
theorem claim_C8_sync_cadence_counterexample :
    1000 % SYNC_TARGET_FRAMES = 0 ∧
    (loopIter^[1000] loopInit).tgtParams = loopInit.tgtParams ∧
    (loopIter^[1000] loopInit).tgtParams ≠ (loopIter^[1000] loopInit).netParams := by
  rw [loopIter_warmup 1000 (by rw [REPLAY_START_SIZE]; omega)]
  refine ⟨by decide, rfl, by decide⟩

/-- C8 (amended): in one loop iteration the target parameters change exactly
when the incremented step counter is a multiple of `SYNC_TARGET_FRAMES` AND
the buffer has reached the warm-up size `REPLAY_START_SIZE`; and whenever
they change they become the online function's current parameters.  (The
hypotheses are loop invariants: the occupancy never exceeds `REPLAY_SIZE`,
and between syncs the continuously-updated online parameters differ from the
target's.) -/
theorem claim_C8_sync_cadence_amended (st : LoopState)
    (hbuf : st.bufLen ≤ REPLAY_SIZE) (hneq : st.tgtParams ≠ st.netParams) :
    ((loopIter st).tgtParams ≠ st.tgtParams ↔
      (REPLAY_START_SIZE ≤ st.bufLen + 1 ∧
        (st.frame_idx + 1) % SYNC_TARGET_FRAMES = 0)) ∧
    (REPLAY_START_SIZE ≤ st.bufLen + 1 ∧ (st.frame_idx + 1) % SYNC_TARGET_FRAMES = 0 →
      (loopIter st).tgtParams = st.netParams) := by
  rw [loopIter]
  by_cases hw : min (st.bufLen + 1) REPLAY_SIZE < REPLAY_START_SIZE
  · have hlt : ¬ REPLAY_START_SIZE ≤ st.bufLen + 1 := by
      rw [REPLAY_SIZE, REPLAY_START_SIZE] at *
      omega
    rw [if_pos hw]
    exact ⟨by simp [hlt], fun hcon => absurd hcon.1 hlt⟩
  · have hge : REPLAY_START_SIZE ≤ st.bufLen + 1 := by
      rw [REPLAY_SIZE, REPLAY_START_SIZE] at *
      omega
    rw [if_neg hw]
    by_cases hmod : (st.frame_idx + 1) % SYNC_TARGET_FRAMES = 0
    · rw [if_pos hmod]
      exact ⟨⟨fun _ => ⟨hge, hmod⟩, fun _ heq => hneq heq.symm⟩, fun _ => rfl⟩
    · rw [if_neg hmod]
      exact ⟨by simp [hmod], fun hcon => absurd hcon.2 hmod⟩

/-- C8 witness: the first post-warm-up multiple of 1000.  From the state
reached just before frame 10000 the sync fires and the target becomes the
online version. -/
theorem claim_C8_sync_cadence_amended_witness :
    (loopIter
        { frame_idx := 9999, bufLen := 9999, netParams := 1,
          tgtParams := 0 }).tgtParams = 1 :=
  (claim_C8_sync_cadence_amended
      { frame_idx := 9999, bufLen := 9999, netParams := 1, tgtParams := 0 }
      (by norm_num [REPLAY_SIZE]) (by decide)).2
    ⟨by norm_num [REPLAY_START_SIZE], by norm_num [SYNC_TARGET_FRAMES]⟩

/-- The hyperparameters of lines 30-39 gathered as an explicit configuration,
so that the startup sequence can be stated for arbitrary values (the source
hard-codes them as module constants and exposes no way to change them). -/
structure Config where
  replay_size : Nat
  batch_size : Nat
  epsilon_decay_last_frame : Nat
  replay_start_size : Nat
  sync_target_frames : Nat
deriving DecidableEq

/-- The startup failure named `ConfigurationError` by the spec's error
taxonomy: an invalid hyperparameter detected before the loop begins. -/
inductive ConfigurationError where
  | invalidHyperparameter
deriving DecidableEq

/-- The startup sequence (lines 137-166), generalized over the hyperparameter
constants: parse the CLI flags, build the environment, the two nets, the
writer and the optimizer (all external collaborators), create
`ExperienceBuffer(REPLAY_SIZE)` and the agent, and set
`epsilon = EPSILON_START`.  The source performs no validation of any
hyperparameter — there is no check and no `ConfigurationError` raise site
anywhere in lines 137-166 (or the rest of the file) — so startup
unconditionally succeeds, whatever the configuration holds. -/
def startup (cfg : Config) : Except ConfigurationError (ExperienceBuffer Nat × ℚ) :=
  Except.ok (ExperienceBuffer.init Nat cfg.replay_size, EPSILON_START)

/-- C9 counterexample to the claim as stated: the all-zero configuration
(capacity 0, batch size 0, decay horizon 0 — each an invalid value in the
claim's sense) is not rejected: startup succeeds and reaches the training
loop with an empty capacity-0 buffer instead of failing with a
`ConfigurationError`. -/
theorem claim_C9_no_startup_validation_counterexample :
    startup
        { replay_size := 0, batch_size := 0, epsilon_decay_last_frame := 0,
          replay_start_size := 0, sync_target_frames := 0 } =
      Except.ok (ExperienceBuffer.init Nat 0, EPSILON_START) := rfl

/-- C9 (amended): the program performs no startup validation of
hyperparameters at all: for every configuration, valid or not, startup
returns successfully and never produces a `ConfigurationError`. -/
theorem claim_C9_startup_never_fails (cfg : Config) :
    startup cfg = Except.ok (ExperienceBuffer.init Nat cfg.replay_size, EPSILON_START) :=
  rfl
